import Mathlib

/-!
Verification of the job-orchestration core of the postgres-backup-tool
repository (src/core/backup.py, src/core/restore.py, src/core/scheduler.py,
src/utils/validation.py) against its natural-language specification.

The Python code is shallowly embedded: pure fragments become Lean functions,
stateful methods become explicit state-passing functions, external effects
(subprocess exit codes, file reads) become explicit boolean/optional inputs.
Python library primitives used by the code (pathlib.PurePath.suffix/stem,
str.split, datetime.strptime, croniter.get_next) are modelled after their
documented semantics, since the code's behaviour hinges on them.
-/

namespace PgBackupTool

/-! ## Python library primitives -/

/-- Index of the last occurrence of a dot in a list of characters
(pathlib uses the position of the last dot of the final path component). -/
def lastDotIdx : List Char → Option Nat
  | [] => none
  | c :: cs =>
    match lastDotIdx cs with
    | some i => some (i + 1)
    | none => if c = '.' then some 0 else none

/-- Python `pathlib.PurePath.suffix` on a final path component: the substring
from the last dot to the end, but empty when the last dot is the first
character or the last character. Note: this is only the LAST extension, so
the suffix of `backup.tar.gz` is `.gz`, not `.tar.gz`. -/
def pathSuffix (name : String) : String :=
  let cs := name.toList
  match lastDotIdx cs with
  | some i => if 0 < i ∧ i + 1 < cs.length then String.mk (cs.drop i) else ""
  | none => ""

/-- Python `pathlib.PurePath.stem` on a final path component: the component
with its (last) suffix removed. -/
def pathStem (name : String) : String :=
  let cs := name.toList
  match lastDotIdx cs with
  | some i => if 0 < i ∧ i + 1 < cs.length then String.mk (cs.take i) else name
  | none => name

/-- Python `str.split(sep)` for a one-character separator: splits at every
occurrence of the separator; the result is always nonempty and its parts
never contain the separator. -/
def pySplit (sep : Char) : List Char → List (List Char)
  | [] => [[]]
  | c :: cs =>
    match pySplit sep cs with
    | [] => [[]]
    | p :: ps => if c = sep then [] :: p :: ps else (c :: p) :: ps

theorem pySplit_ne_nil (sep : Char) (l : List Char) : pySplit sep l ≠ [] := by
  induction l with
  | nil => simp [pySplit]
  | cons c cs ih =>
    simp only [pySplit]
    cases h : pySplit sep cs with
    | nil => simp
    | cons p ps => by_cases hc : c = sep <;> simp [hc]

theorem mem_pySplit_not_sep (sep : Char) (l : List Char) :
    ∀ p ∈ pySplit sep l, sep ∉ p := by
  induction l with
  | nil =>
    intro p hp
    simp [pySplit] at hp
    subst hp
    simp
  | cons c cs ih =>
    intro p hp
    rcases hsp : pySplit sep cs with _ | ⟨q, qs⟩
    · exact absurd hsp (pySplit_ne_nil sep cs)
    · have hstep : pySplit sep (c :: cs) =
          if c = sep then [] :: q :: qs else (c :: q) :: qs := by
        simp only [pySplit, hsp]
      rw [hstep] at hp
      rw [hsp] at ih
      by_cases hc : c = sep
      · rw [if_pos hc] at hp
        rcases List.mem_cons.mp hp with h1 | h2
        · subst h1; simp
        · exact ih p h2
      · rw [if_neg hc] at hp
        rcases List.mem_cons.mp hp with h1 | h2
        · subst h1
          intro hmem
          rcases List.mem_cons.mp hmem with h | h
          · exact hc h.symm
          · exact ih q (List.mem_cons_self q qs) h
        · exact ih p (List.mem_cons.mpr (Or.inr h2))

theorem getLastD_mem {α : Type} (l : List α) (d : α) (h : l ≠ []) :
    l.getLastD d ∈ l := by
  induction l generalizing d with
  | nil => exact absurd rfl h
  | cons c cs ih =>
    rw [List.getLastD_cons]
    cases hcs : cs with
    | nil => subst hcs; simp
    | cons y ys =>
      subst hcs
      exact List.mem_cons_of_mem c (ih c (by simp))

theorem pySplit_of_not_mem (sep : Char) (l : List Char) (h : sep ∉ l) :
    pySplit sep l = [l] := by
  induction l with
  | nil => rfl
  | cons c cs ih =>
    have hc : ¬ c = sep := fun e => h (e ▸ List.mem_cons_self c cs)
    have hcs : sep ∉ cs := fun m => h (List.mem_cons_of_mem c m)
    simp only [pySplit, ih hcs]
    rw [if_neg hc]

/-! ## Data model (src/core/models.py) -/

/-- Enum `BackupStatus` from src/core/models.py. -/
inductive BackupStatus where
  | pending
  | running
  | completed
  | failed
  | cancelled
deriving DecidableEq, Repr

/-- Enum `CompressionType` from src/core/models.py. -/
inductive CompressionType where
  | none
  | gzip
  | bzip2
  | lz4
deriving DecidableEq, Repr

/-! ## C1: restore format dispatch (src/core/restore.py) -/

/-- The three backup formats the restore executor can dispatch to. -/
inductive BackupFormat where
  | custom
  | directory
  | sql
deriving DecidableEq, Repr

/-- Environment-dependent outcomes of the integrity probes run by
`RestoreManager._verify_backup_file`: file existence, the exit status of
`pg_restore --list`, whether `tarfile.open` succeeds, and whether the
(1 KB prefix of the) file is readable. -/
structure VerifyEnv where
  fileExists : Bool
  pgRestoreListOk : Bool
  tarOpensOk : Bool
  fileReadableOk : Bool

/-- `RestoreManager._verify_backup_file` (src/core/restore.py lines 114-158):
dispatches on `backup_file.suffix` membership in three literal lists and
falls through to `False` when no list matches. -/
def verifyBackupFile (env : VerifyEnv) (fileName : String) : Bool :=
  if !env.fileExists then false
  else if [".dump", ".dump.gz", ".dump.bz2"].contains (pathSuffix fileName) then
    env.pgRestoreListOk
  else if [".tar", ".tar.gz", ".tar.bz2"].contains (pathSuffix fileName) then
    env.tarOpensOk
  else if [".sql", ".sql.gz"].contains (pathSuffix fileName) then
    env.fileReadableOk
  else
    false

/-- The `format` entry produced by `RestoreManager._get_backup_info`
(src/core/restore.py lines 160-184): `none` models the absence of a
`format` key (no suffix list matched), which the caller treats as an
unsupported format. -/
def getBackupInfoFormat (fileName : String) : Option BackupFormat :=
  if [".dump", ".dump.gz", ".dump.bz2"].contains (pathSuffix fileName) then
    some BackupFormat.custom
  else if [".tar", ".tar.gz", ".tar.bz2"].contains (pathSuffix fileName) then
    some BackupFormat.directory
  else if [".sql", ".sql.gz"].contains (pathSuffix fileName) then
    some BackupFormat.sql
  else
    Option.none

/-- Outcome of the format-dispatch portion of `RestoreManager.restore_backup`
(src/core/restore.py lines 56-86): verification failure or an unsupported
format aborts (the raised RuntimeError is caught and turned into a failed
result); otherwise the format-specific restore routine is selected. -/
inductive RestoreDispatch where
  | custom
  | directory
  | sql
  | failure (msg : String)
deriving DecidableEq, Repr

/-- Format dispatch of `RestoreManager.restore_backup`: first
`_verify_backup_file` must succeed, then the `format` recorded by
`_get_backup_info` selects the restore routine. -/
def restoreDispatch (env : VerifyEnv) (fileName : String) : RestoreDispatch :=
  if !(verifyBackupFile env fileName) then
    RestoreDispatch.failure ("Backup file verification failed")
  else
    match getBackupInfoFormat fileName with
    | some BackupFormat.custom => RestoreDispatch.custom
    | some BackupFormat.directory => RestoreDispatch.directory
    | some BackupFormat.sql => RestoreDispatch.sql
    | Option.none => RestoreDispatch.failure ("Unsupported backup format")

/-- A verification environment in which every external integrity probe
succeeds: the artifact exists and is a well-formed dump/tar/SQL file. -/
def allProbesOk : VerifyEnv :=
  { fileExists := true, pgRestoreListOk := true, tarOpensOk := true,
    fileReadableOk := true }

/-- Claim C1: the claim states that the restore executor dispatches on the
filename's extension/suffix chain, handling `backup.dump.gz` as custom,
`backup.tar.gz` as directory and `backup.sql.gz` as plain SQL. The code
compares `backup_file.suffix` — pathlib's LAST suffix only — against lists
that contain the multi-dot entries `.dump.gz`, `.tar.gz`, `.sql.gz`; those
entries are unreachable, since `suffix` of such a file is just `.gz`. With
every external integrity probe succeeding, the uncompressed forms dispatch
as claimed and an unknown suffix fails, but all three compressed forms are
rejected at verification instead of being dispatched — even though the
backup executor itself produces `.dump.gz`/`.tar.gz` artifacts under its
default gzip compression. -/
theorem restoreDispatch_ignores_suffix_chain :
    restoreDispatch allProbesOk ("backup.dump") = RestoreDispatch.custom ∧
    restoreDispatch allProbesOk ("backup.tar") = RestoreDispatch.directory ∧
    restoreDispatch allProbesOk ("backup.sql") = RestoreDispatch.sql ∧
    restoreDispatch allProbesOk ("backup.xyz") =
      RestoreDispatch.failure ("Backup file verification failed") ∧
    pathSuffix ("backup.dump.gz") = (".gz") ∧
    restoreDispatch allProbesOk ("backup.dump.gz") =
      RestoreDispatch.failure ("Backup file verification failed") ∧
    restoreDispatch allProbesOk ("backup.tar.gz") =
      RestoreDispatch.failure ("Backup file verification failed") ∧
    restoreDispatch allProbesOk ("backup.sql.gz") =
      RestoreDispatch.failure ("Backup file verification failed") := by
  decide

/-! ## C2: retention sweep (src/core/scheduler.py, `_handle_retention`) -/

/-- A naive datetime value, compared field by field (Python `datetime`
comparison is lexicographic on the fields). -/
structure PyDateTime where
  year : Nat
  month : Nat
  day : Nat
  hour : Nat
  minute : Nat
  second : Nat
deriving DecidableEq, Repr

/-- Numeric value of a digit string. -/
def digitsVal (l : List Char) : Nat :=
  l.foldl (fun a c => a * 10 + (c.toNat - ('0').toNat)) 0

/-- Length splittings tried for the `%Y%m%d` part of a strptime pattern:
`%Y` consumes 1-4 digits, `%m` and `%d` 1-2 digits each, attempted
greedily with backtracking as CPython's `_strptime` regex does. -/
def dateLenChoices : List (Nat × Nat × Nat) :=
  [(4, 2, 2), (4, 2, 1), (4, 1, 2), (4, 1, 1),
   (3, 2, 2), (3, 2, 1), (3, 1, 2), (3, 1, 1),
   (2, 2, 2), (2, 2, 1), (2, 1, 2), (2, 1, 1),
   (1, 2, 2), (1, 2, 1), (1, 1, 2), (1, 1, 1)]

/-- Length splittings tried for the `%H%M%S` part: 1-2 digits each. -/
def timeLenChoices : List (Nat × Nat × Nat) :=
  [(2, 2, 2), (2, 2, 1), (2, 1, 2), (2, 1, 1),
   (1, 2, 2), (1, 2, 1), (1, 1, 2), (1, 1, 1)]

/-- Parse a digit run as `%Y%m%d` (month 1-12, day 1-31), consuming the
whole chunk. -/
def parseDateChunk (l : List Char) : Option (Nat × Nat × Nat) :=
  dateLenChoices.findSome? (fun t =>
    if l.length = t.1 + t.2.1 + t.2.2 ∧ l.all Char.isDigit then
      let m := digitsVal ((l.drop t.1).take t.2.1)
      let d := digitsVal (l.drop (t.1 + t.2.1))
      if 1 ≤ m ∧ m ≤ 12 ∧ 1 ≤ d ∧ d ≤ 31 then
        some (digitsVal (l.take t.1), m, d)
      else
        Option.none
    else
      Option.none)

/-- Parse a digit run as `%H%M%S` (hour 0-23, minute 0-59, second 0-61),
consuming the whole chunk. -/
def parseTimeChunk (l : List Char) : Option (Nat × Nat × Nat) :=
  timeLenChoices.findSome? (fun t =>
    if l.length = t.1 + t.2.1 + t.2.2 ∧ l.all Char.isDigit then
      let h := digitsVal (l.take t.1)
      let mi := digitsVal ((l.drop t.1).take t.2.1)
      let s := digitsVal (l.drop (t.1 + t.2.1))
      if h ≤ 23 ∧ mi ≤ 59 ∧ s ≤ 61 then
        some (h, mi, s)
      else
        Option.none
    else
      Option.none)

/-- Python `datetime.strptime(s, "%Y%m%d_%H%M%S")`: the pattern's literal
underscore forces the input to contain exactly one `_`, separating a
`%Y%m%d` digit run from a `%H%M%S` digit run; anything else raises
ValueError (modelled as `none`). -/
def strptimeYmdHMS (s : List Char) : Option PyDateTime :=
  match pySplit '_' s with
  | [datePart, timePart] =>
    match parseDateChunk datePart, parseTimeChunk timePart with
    | some (y, m, d), some (h, mi, se) => some ⟨y, m, d, h, mi, se⟩
    | _, _ => Option.none
  | _ => Option.none

/-- Field-lexicographic strict order on naive datetimes. -/
def pyDateTimeLt (a b : PyDateTime) : Bool :=
  if a.year ≠ b.year then decide (a.year < b.year)
  else if a.month ≠ b.month then decide (a.month < b.month)
  else if a.day ≠ b.day then decide (a.day < b.day)
  else if a.hour ≠ b.hour then decide (a.hour < b.hour)
  else if a.minute ≠ b.minute then decide (a.minute < b.minute)
  else decide (a.second < b.second)

/-- Whether `pre` is a prefix of `s` (the effect of the scheduler's
`backup_dir.glob(f"{job.name}_*")` filter on a file name, `*` matching any
tail including the empty one). -/
def strStartsWith (pre s : String) : Bool :=
  decide (s.toList.take pre.toList.length = pre.toList)

/-- `BackupScheduler._handle_retention` (src/core/scheduler.py lines
185-212), as a per-file deletion decision: a file is deleted exactly when
its name passes the `{job.name}_*` glob, the last `_`-separated fragment of
its stem parses under `"%Y%m%d_%H%M%S"`, and the parsed date is older than
the cutoff (`now - retention_days`); parse failures are skipped. -/
def retentionDeletes (jobName : String) (cutoff : PyDateTime)
    (fileName : String) : Bool :=
  if strStartsWith (jobName ++ ("_")) fileName then
    match strptimeYmdHMS ((pySplit '_' (pathStem fileName).toList).getLastD []) with
    | some fileDate => pyDateTimeLt fileDate cutoff
    | Option.none => false
  else
    false

theorem strptimeYmdHMS_no_underscore (l : List Char) (h : pySplit '_' l = [l]) :
    strptimeYmdHMS l = Option.none := by
  unfold strptimeYmdHMS
  rw [h]

/-- Claim C2: the claim states that a file `{jobname}_{YYYYMMDD}_{HHMMSS}.ext`
older than the retention window is deleted while non-matching files are
spared. The code takes `stem.split("_")[-1]` — which can never contain an
underscore — and parses it with the pattern `"%Y%m%d_%H%M%S"`, whose literal
underscore therefore never matches: the parse always fails, every file is
skipped, and the sweep deletes nothing at all. The conjuncts below prove the
universal no-op, evaluate the sweep at the claim's own example (an expired
`jobname_20200101_000000.sql` survives), and show the extracted fragment is
just `000000` even though the full embedded timestamp would have parsed and
compared as expired. -/
theorem retention_sweep_never_deletes :
    (∀ (jobName : String) (cutoff : PyDateTime) (fileName : String),
      retentionDeletes jobName cutoff fileName = false) ∧
    retentionDeletes ("jobname") ⟨2026, 10, 1, 0, 0, 0⟩
      ("jobname_20200101_000000.sql") = false ∧
    (pySplit '_' (pathStem ("jobname_20200101_000000.sql")).toList).getLastD []
      = ("000000").toList ∧
    strptimeYmdHMS (("000000").toList) = Option.none ∧
    strptimeYmdHMS (("20200101_000000").toList) = some ⟨2020, 1, 1, 0, 0, 0⟩ ∧
    pyDateTimeLt ⟨2020, 1, 1, 0, 0, 0⟩ ⟨2026, 10, 1, 0, 0, 0⟩ = true ∧
    retentionDeletes ("jobname") ⟨2026, 10, 1, 0, 0, 0⟩ ("random.sql") = false := by
  refine ⟨?_, by decide, by decide, by decide, by decide, by decide, by decide⟩
  intro jobName cutoff fileName
  unfold retentionDeletes
  split
  · have hmem : (pySplit '_' (pathStem fileName).toList).getLastD [] ∈
        pySplit '_' (pathStem fileName).toList :=
      getLastD_mem _ _ (pySplit_ne_nil _ _)
    have hnou : '_' ∉ (pySplit '_' (pathStem fileName).toList).getLastD [] :=
      mem_pySplit_not_sep _ _ _ hmem
    have hnone := strptimeYmdHMS_no_underscore _ (pySplit_of_not_mem _ _ hnou)
    rw [hnone]
  · rfl

/-! ## C3: progress monitor (src/core/backup.py `_monitor_backup_process`,
src/core/restore.py `_monitor_restore_process`) -/

/-- Common shape of both monitor loops: while the process is alive, each
1-second poll observes an elapsed time `e` and emits the time-based estimate
`min(95, e * 100 // denom)` with a running message; after the loop observes
the process exit it emits exactly one final `(100, message + " completed")`.
The list of elapsed-time samples is the abstraction of the process lifetime
(one entry per poll in which the process was still alive); the progress
callback is registered for the whole run. -/
def monitorEmissions (denom : Nat) (message : String) (samples : List Nat) :
    List (Nat × String) :=
  samples.map
    (fun e => (min 95 (e * 100 / denom),
      message ++ (" (") ++ toString e ++ ("s)")))
  ++ [(100, message ++ (" completed"))]

/-- `BackupManager._monitor_backup_process` (src/core/backup.py lines
276-305): time-based estimate against an assumed 5-minute (300 s) total. -/
def monitorBackupProcess (message : String) (samples : List Nat) :
    List (Nat × String) :=
  monitorEmissions 300 message samples

/-- `RestoreManager._monitor_restore_process` (src/core/restore.py lines
419-448): time-based estimate against an assumed 10-minute (600 s) total. -/
def monitorRestoreProcess (message : String) (samples : List Nat) :
    List (Nat × String) :=
  monitorEmissions 600 message samples

theorem monitorEmissions_terminal (denom : Nat) (message : String)
    (samples : List Nat) :
    (monitorEmissions denom message samples).getLast? =
      some (100, message ++ (" completed")) ∧
    (∀ p ∈ (monitorEmissions denom message samples).dropLast, p.1 ≤ 95) ∧
    (monitorEmissions denom message samples).countP
      (fun p => p.1 == 100) = 1 := by
  unfold monitorEmissions
  refine ⟨List.getLast?_concat _, ?_, ?_⟩
  · rw [List.dropLast_concat]
    intro p hp
    rcases List.mem_map.mp hp with ⟨e, _, rfl⟩
    exact min_le_left _ _
  · rw [List.countP_append]
    have h1 : (samples.map
        (fun e => ((min 95 (e * 100 / denom) : Nat),
          message ++ (" (") ++ toString e ++ ("s)")))).countP
        (fun p => p.1 == 100) = 0 := by
      rw [List.countP_eq_zero]
      intro p hp
      rcases List.mem_map.mp hp with ⟨e, _, rfl⟩
      have hle : min 95 (e * 100 / denom) ≤ 95 := min_le_left _ _
      simp only [beq_iff_eq]
      omega
    rw [h1]
    simp [List.countP_cons]

/-- Claim C3: for every monitored process lifecycle (any list of elapsed-time
poll samples observed while the process was alive), both monitor loops emit
a callback sequence whose last element is exactly `(100, <completed
message>)`, in which every element before the last is capped at 95 percent,
and in which percent 100 occurs exactly once — only the terminal update,
emitted after the poll loop has seen the process exit. -/
theorem monitor_terminal_guarantee :
    ∀ (message : String) (samples : List Nat),
      ((monitorBackupProcess message samples).getLast? =
          some (100, message ++ (" completed")) ∧
        (∀ p ∈ (monitorBackupProcess message samples).dropLast, p.1 ≤ 95) ∧
        (monitorBackupProcess message samples).countP
          (fun p => p.1 == 100) = 1) ∧
      ((monitorRestoreProcess message samples).getLast? =
          some (100, message ++ (" completed")) ∧
        (∀ p ∈ (monitorRestoreProcess message samples).dropLast, p.1 ≤ 95) ∧
        (monitorRestoreProcess message samples).countP
          (fun p => p.1 == 100) = 1) :=
  fun message samples =>
    ⟨monitorEmissions_terminal 300 message samples,
     monitorEmissions_terminal 600 message samples⟩

/-! ## Python dict operations (insertion-ordered association lists) -/

/-- Python `key in dict`. -/
def dictContains {α : Type} (d : List (String × α)) (k : String) : Bool :=
  d.any (fun p => p.1 == k)

/-- Python `dict[key] = value`: replace in place if present, else append. -/
def dictSet {α : Type} (d : List (String × α)) (k : String) (v : α) :
    List (String × α) :=
  if d.any (fun p => p.1 == k) then
    d.map (fun p => if p.1 == k then (k, v) else p)
  else
    d ++ [(k, v)]

/-- Python `del dict[key]` (a no-op composed with the guarding
`if key in dict` when the key is absent). -/
def dictDel {α : Type} (d : List (String × α)) (k : String) :
    List (String × α) :=
  d.filter (fun p => !(p.1 == k))

/-- Python `dict[key]` lookup returning the stored value when present. -/
def dictFind {α : Type} : List (String × α) → String → Option α
  | [], _ => Option.none
  | p :: ps, k => if p.1 == k then some p.2 else dictFind ps k

theorem dictContains_dictDel {α : Type} (d : List (String × α)) (k : String) :
    dictContains (dictDel d k) k = false := by
  induction d with
  | nil => rfl
  | cons p ps ih =>
    by_cases h : p.1 = k
    · simp only [dictDel, dictContains, List.filter_cons] at *
      simp [h, ih]
    · simp only [dictDel, dictContains, List.filter_cons] at *
      simp [h, ih]

theorem contains_filter_ne (l : List String) (k : String) :
    (l.filter (fun x => !(x == k))).contains k = false := by
  induction l with
  | nil => rfl
  | cons x xs ih =>
    by_cases h : x = k
    · simp only [List.filter_cons] at *
      simp [h, ih]
    · simp only [List.filter_cons] at *
      simp [h, Ne.symm h, ih]

theorem dictFind_isSome {α : Type} (d : List (String × α)) (k : String) :
    (dictFind d k).isSome = dictContains d k := by
  induction d with
  | nil => rfl
  | cons p ps ih =>
    by_cases h : p.1 = k
    · simp [dictFind, dictContains, h]
    · simp only [dictFind, dictContains, List.any_cons] at *
      simp [h, ih]

/-! ## C4, C10: BackupManager / RestoreManager lifecycle
(src/core/backup.py, src/core/restore.py) -/

/-- `BackupResult` from src/core/models.py (the fields the executor touches). -/
structure BackupResultM where
  job_id : String
  status : BackupStatus
  backup_file : Option String
  start_time : Nat
  end_time : Option Nat
  size_bytes : Nat
  checksum : Option String
  error_message : Option String
deriving DecidableEq, Repr

/-- `RestoreResult` from src/core/models.py (the fields the executor touches). -/
structure RestoreResultM where
  backup_file : String
  status : BackupStatus
  start_time : Nat
  end_time : Option Nat
  tables_restored : Nat
  verification_passed : Bool
  error_message : Option String
deriving DecidableEq, Repr

/-- The mutable registries of `BackupManager`: `active_backups` (job id to
result) and `progress_callbacks` (the set of job ids with a registered
callback; the callables themselves are opaque). -/
structure BackupManagerState where
  active_backups : List (String × BackupResultM)
  progress_callbacks : List String
deriving DecidableEq, Repr

/-- The mutable registries of `RestoreManager`. -/
structure RestoreManagerState where
  active_restores : List (String × RestoreResultM)
  progress_callbacks : List String
deriving DecidableEq, Repr

/-- Abstraction of the guarded body of `BackupManager.create_backup`
(everything inside the `try`): it either completes, producing the final
artifact and checksum, or raises an exception with message `msg` (any
`Exception` raised anywhere in the body — probe failure, pg_dump non-zero
exit, filesystem errors — is caught by the single `except Exception`). -/
inductive BackupBodyOutcome where
  | ok (backupFile : String) (checksum : String) (sizeBytes : Nat)
  | exn (msg : String)
deriving DecidableEq, Repr

/-- `BackupManager.create_backup` (src/core/backup.py lines 37-105) as a
state transformer: register the running result (and the callback when
provided), run the body, convert its outcome into a terminal result
(`completed`, or `failed` with the exception text), and in the `finally`
block delete the job id from both registries. The function is total: no
exception propagates to the caller. -/
def createBackup (s : BackupManagerState) (jobId : String)
    (hasCallback : Bool) (startTime endTime : Nat)
    (outcome : BackupBodyOutcome) : BackupResultM × BackupManagerState :=
  let result0 : BackupResultM :=
    { job_id := jobId, status := BackupStatus.running,
      backup_file := Option.none, start_time := startTime,
      end_time := Option.none, size_bytes := 0, checksum := Option.none,
      error_message := Option.none }
  let active1 := dictSet s.active_backups jobId result0
  let callbacks1 :=
    if hasCallback then
      if s.progress_callbacks.contains jobId then s.progress_callbacks
      else s.progress_callbacks ++ [jobId]
    else s.progress_callbacks
  let result :=
    match outcome with
    | BackupBodyOutcome.ok f c sz =>
      { result0 with
        status := BackupStatus.completed,
        backup_file := some f,
        end_time := some endTime,
        size_bytes := sz,
        checksum := some c }
    | BackupBodyOutcome.exn m =>
      { result0 with
        status := BackupStatus.failed,
        error_message := some m,
        end_time := some endTime }
  let active2 := dictDel (dictSet active1 jobId result) jobId
  let callbacks2 := callbacks1.filter (fun k => !(k == jobId))
  (result, { active_backups := active2, progress_callbacks := callbacks2 })

/-- Claim C4: `create_backup` never raises (it is a total function of the
body's outcome); its result's status is terminal — `completed`, or `failed`
carrying the exception's message — its end time is stamped, and after it
returns the job id is in neither the active-operations registry nor the
progress-callback registry, on every path including the exception path. -/
theorem create_backup_cleanup :
    ∀ (s : BackupManagerState) (jobId : String) (hasCallback : Bool)
      (startTime endTime : Nat) (outcome : BackupBodyOutcome),
      ((createBackup s jobId hasCallback startTime endTime outcome).1.status
          = BackupStatus.completed ∨
        ((createBackup s jobId hasCallback startTime endTime outcome).1.status
            = BackupStatus.failed ∧
          ∃ m, outcome = BackupBodyOutcome.exn m ∧
            (createBackup s jobId hasCallback startTime endTime
              outcome).1.error_message = some m)) ∧
      (createBackup s jobId hasCallback startTime endTime outcome).1.end_time
        = some endTime ∧
      dictContains
        (createBackup s jobId hasCallback startTime endTime
          outcome).2.active_backups jobId = false ∧
      (createBackup s jobId hasCallback startTime endTime
        outcome).2.progress_callbacks.contains jobId = false := by
  intro s jobId hasCallback startTime endTime outcome
  cases outcome with
  | ok f c sz =>
    refine ⟨Or.inl rfl, rfl, ?_, ?_⟩
    · exact dictContains_dictDel _ _
    · exact contains_filter_ne _ _
  | exn m =>
    refine ⟨Or.inr ⟨rfl, m, rfl, rfl⟩, rfl, ?_, ?_⟩
    · exact dictContains_dictDel _ _
    · exact contains_filter_ne _ _

/-- `BackupManager.cancel_backup` (src/core/backup.py lines 469-479) as a
state transformer: when the job id is registered, mark the stored result
cancelled with an end time, delete the id from both registries and return
`True` (the mutated result object, still referenced by the original caller,
is returned as the middle component); otherwise return `False` and leave
everything untouched. -/
def cancelBackup (s : BackupManagerState) (jobId : String) (now : Nat) :
    Bool × Option BackupResultM × BackupManagerState :=
  match dictFind s.active_backups jobId with
  | some result =>
    (true,
     some { result with status := BackupStatus.cancelled, end_time := some now },
     { active_backups := dictDel s.active_backups jobId,
       progress_callbacks :=
         s.progress_callbacks.filter (fun k => !(k == jobId)) })
  | Option.none => (false, Option.none, s)

/-- `RestoreManager.cancel_restore` (src/core/restore.py lines 481-491):
identical shape over the restore registries. -/
def cancelRestore (t : RestoreManagerState) (restoreId : String) (now : Nat) :
    Bool × Option RestoreResultM × RestoreManagerState :=
  match dictFind t.active_restores restoreId with
  | some result =>
    (true,
     some { result with status := BackupStatus.cancelled, end_time := some now },
     { active_restores := dictDel t.active_restores restoreId,
       progress_callbacks :=
         t.progress_callbacks.filter (fun k => !(k == restoreId)) })
  | Option.none => (false, Option.none, t)

/-- Claim C10: `cancel_backup(job_id)` returns `True` exactly when the id is
in the active registry at call time; on `True` the operation's result is
set to cancelled with its end time stamped and the id is removed from both
the active registry and the callback registry; on `False` nothing changes.
`cancel_restore` satisfies the symmetric contract. -/
theorem cancel_backup_restore_contract :
    ∀ (s : BackupManagerState) (jobId : String)
      (t : RestoreManagerState) (restoreId : String) (now : Nat),
      ((cancelBackup s jobId now).1 = dictContains s.active_backups jobId) ∧
      ((cancelBackup s jobId now).1 = true →
        ∃ r, (cancelBackup s jobId now).2.1 = some r ∧
          r.status = BackupStatus.cancelled ∧ r.end_time = some now ∧
          dictContains (cancelBackup s jobId now).2.2.active_backups jobId
            = false ∧
          (cancelBackup s jobId now).2.2.progress_callbacks.contains jobId
            = false) ∧
      ((cancelBackup s jobId now).1 = false →
        (cancelBackup s jobId now).2.2 = s ∧
        (cancelBackup s jobId now).2.1 = Option.none) ∧
      ((cancelRestore t restoreId now).1
          = dictContains t.active_restores restoreId) ∧
      ((cancelRestore t restoreId now).1 = true →
        ∃ r, (cancelRestore t restoreId now).2.1 = some r ∧
          r.status = BackupStatus.cancelled ∧ r.end_time = some now ∧
          dictContains (cancelRestore t restoreId now).2.2.active_restores
            restoreId = false ∧
          (cancelRestore t restoreId now).2.2.progress_callbacks.contains
            restoreId = false) ∧
      ((cancelRestore t restoreId now).1 = false →
        (cancelRestore t restoreId now).2.2 = t ∧
        (cancelRestore t restoreId now).2.1 = Option.none) := by
  intro s jobId t restoreId now
  refine ⟨?_, ?_, ?_, ?_, ?_, ?_⟩
  · rw [← dictFind_isSome]
    cases h : dictFind s.active_backups jobId <;> simp [cancelBackup, h]
  · cases h : dictFind s.active_backups jobId with
    | none => intro hc; simp [cancelBackup, h] at hc
    | some r =>
      intro _
      refine ⟨{ r with status := BackupStatus.cancelled, end_time := some now },
        ?_, rfl, rfl, ?_, ?_⟩
      · simp [cancelBackup, h]
      · simp only [cancelBackup, h]
        exact dictContains_dictDel _ _
      · simp only [cancelBackup, h]
        exact contains_filter_ne _ _
  · cases h : dictFind s.active_backups jobId with
    | none => intro _; simp [cancelBackup, h]
    | some r => intro hc; simp [cancelBackup, h] at hc
  · rw [← dictFind_isSome]
    cases h : dictFind t.active_restores restoreId <;> simp [cancelRestore, h]
  · cases h : dictFind t.active_restores restoreId with
    | none => intro hc; simp [cancelRestore, h] at hc
    | some r =>
      intro _
      refine ⟨{ r with status := BackupStatus.cancelled, end_time := some now },
        ?_, rfl, rfl, ?_, ?_⟩
      · simp [cancelRestore, h]
      · simp only [cancelRestore, h]
        exact dictContains_dictDel _ _
      · simp only [cancelRestore, h]
        exact contains_filter_ne _ _
  · cases h : dictFind t.active_restores restoreId with
    | none => intro _; simp [cancelRestore, h]
    | some r => intro hc; simp [cancelRestore, h] at hc

/-- A concrete running backup result used to exercise the cancel contract. -/
def sampleRunningBackup : BackupResultM :=
  { job_id := ("job-1"), status := BackupStatus.running,
    backup_file := Option.none, start_time := 0, end_time := Option.none,
    size_bytes := 0, checksum := Option.none, error_message := Option.none }

/-- Witness for C10: at a registry holding `job-1`, cancellation returns
`True`, yields a cancelled result with the end time stamped, and clears
both registries; at an empty restore registry it returns `False` and
changes nothing. -/
theorem cancel_backup_restore_contract_witness :
    (∃ r, (cancelBackup ⟨[(("job-1"), sampleRunningBackup)], [("job-1")]⟩
        ("job-1") 7).2.1 = some r ∧
      r.status = BackupStatus.cancelled ∧ r.end_time = some 7 ∧
      dictContains (cancelBackup ⟨[(("job-1"), sampleRunningBackup)],
        [("job-1")]⟩ ("job-1") 7).2.2.active_backups ("job-1") = false ∧
      (cancelBackup ⟨[(("job-1"), sampleRunningBackup)], [("job-1")]⟩
        ("job-1") 7).2.2.progress_callbacks.contains ("job-1") = false) ∧
    (cancelRestore ⟨[], []⟩ ("r-9") 7).2.2 = (⟨[], []⟩ : RestoreManagerState) ∧
    (cancelRestore ⟨[], []⟩ ("r-9") 7).2.1 = Option.none := by
  have h := cancel_backup_restore_contract
    ⟨[(("job-1"), sampleRunningBackup)], [("job-1")]⟩ ("job-1")
    ⟨[], []⟩ ("r-9") 7
  exact ⟨h.2.1 (by decide), h.2.2.2.2.2 (by decide)⟩

/-! ## C5: scheduler due-check (src/core/scheduler.py, `_should_run_job`) -/

/-- `BackupScheduler._should_run_job` (src/core/scheduler.py lines 122-137):
given the cron-computed next fire time, the job is due when
`0 <= (next_run - now).total_seconds() <= 60`. Times are whole seconds; a
negative difference is the `now ≤ nextRun` failure case. -/
def shouldRunJob (nextRun now : Nat) : Bool :=
  decide (now ≤ nextRun ∧ nextRun - now ≤ 60)

/-- croniter's `get_next` for the cron expression `"0 2 * * *"` (daily at
02:00:00): the least instant STRICTLY after `now` whose time of day is
02:00:00. Time is seconds since an epoch midnight, 86400 s per day,
7200 s = 02:00:00. `get_next` never returns `now` itself — a start time
exactly on (or past) the fire time yields the next day's occurrence. -/
def cronDailyNext (now : Nat) : Nat :=
  if now % 86400 < 7200 then now - now % 86400 + 7200
  else now - now % 86400 + 86400 + 7200

/-- The scheduler's due-check specialised to a job scheduled `"0 2 * * *"`. -/
def shouldRunDailyAt2 (now : Nat) : Bool :=
  shouldRunJob (cronDailyNext now) now

/-- Counterexample to claim C5: with cron `"0 2 * * *"` and the current time
02:00:30 (here on day 18262 after the epoch, i.e. 2020-01-01), the job is
NOT due in that tick — `get_next` is strictly after `now`, so the computed
next fire time is the NEXT day's 02:00:00, 86370 seconds ahead, far outside
the 0-60 s window. The claim's assertion that the job is due at 02:00:30 is
false on the code. -/
theorem due_check_not_due_at_020030 :
    shouldRunDailyAt2 (18262 * 86400 + 7230) = false ∧
    cronDailyNext (18262 * 86400 + 7230) = 18263 * 86400 + 7200 := by
  constructor <;> decide

/-- Claim C5 (amended): the due-check declares a job due exactly when the
cron-computed next-fire time (strictly after `now`) falls 0 to 60 seconds
ahead of the tick's `now`. For cron `"0 2 * * *"` this means the job is due
exactly in ticks whose `now` lies in 01:59:00-01:59:59; at 02:00:30 it is
not due (the next fire time is already the next day's 02:00:00), and at
02:01:30 it is likewise not due until the next calendar occurrence. -/
theorem scheduler_due_check_window :
    (∀ nextRun now : Nat, shouldRunJob nextRun now = true ↔
      (now ≤ nextRun ∧ nextRun - now ≤ 60)) ∧
    (∀ now : Nat, shouldRunDailyAt2 now = true ↔
      (7140 ≤ now % 86400 ∧ now % 86400 < 7200)) ∧
    shouldRunDailyAt2 (18262 * 86400 + 7170) = true ∧
    shouldRunDailyAt2 (18262 * 86400 + 7290) = false := by
  refine ⟨?_, ?_, by decide, by decide⟩
  · intro nextRun now
    simp [shouldRunJob]
  · intro now
    have h1 : now % 86400 < 86400 := Nat.mod_lt _ (by norm_num)
    have h2 : now % 86400 ≤ now := Nat.mod_le _ _
    simp only [shouldRunDailyAt2, shouldRunJob, cronDailyNext,
      decide_eq_true_eq]
    split <;> omega

/-- Witness for C5: the amended window evaluated at a 01:59:30 tick. -/
theorem scheduler_due_check_window_witness :
    shouldRunDailyAt2 (18262 * 86400 + 7170) = true :=
  scheduler_due_check_window.2.2.1

/-! ## C6: full-backup strategy selection (src/core/backup.py) -/

/-- `BackupConfig` from src/core/models.py (the fields the strategy
selection and config validation read). -/
structure BackupConfigM where
  parallel_jobs : Nat
  compression : CompressionType
  exclude_schemas : List String
  include_schemas : List String
  exclude_tables : List String
  include_tables : List String
deriving DecidableEq, Repr

/-- The two full-backup execution strategies of `BackupManager`. -/
inductive FullBackupStrategy where
  | directory
  | custom
deriving DecidableEq, Repr

/-- `BackupManager._create_full_backup` (src/core/backup.py lines 107-123):
directory strategy (`_create_parallel_backup`) exactly when
`parallel_jobs > 1 and compression != CompressionType.NONE`, otherwise the
custom-format strategy (`_create_custom_backup`). No fallback path exists. -/
def chooseFullBackupStrategy (cfg : BackupConfigM) : FullBackupStrategy :=
  if 1 < cfg.parallel_jobs ∧ cfg.compression ≠ CompressionType.none then
    FullBackupStrategy.directory
  else
    FullBackupStrategy.custom

/-- Output-file suffix chosen by `BackupManager._create_custom_backup`
(src/core/backup.py lines 246-254); pg_dump writes the custom-format dump
directly to this file, no separate compression step is applied. -/
def customBackupSuffix (c : CompressionType) : String :=
  if c = CompressionType.gzip then (".dump.gz")
  else if c = CompressionType.bzip2 then (".dump.bz2")
  else (".dump")

/-- Archive suffix chosen by `BackupManager._create_parallel_backup`
(src/core/backup.py lines 190-205): tar+gzip, tar+bzip2, or plain tar. -/
def directoryArchiveSuffix (c : CompressionType) : String :=
  if c = CompressionType.gzip then (".tar.gz")
  else if c = CompressionType.bzip2 then (".tar.bz2")
  else (".tar")

/-- Claim C6: the directory strategy is chosen exactly when
`parallel_jobs > 1` and compression is not `none`; in every other case the
custom-format strategy is chosen, whose output suffix is `.dump.gz` for
gzip, `.dump.bz2` for bzip2 and `.dump` otherwise (lz4 or none). The
directory strategy's archive suffixes are also as specified. -/
theorem full_backup_strategy_selection :
    (∀ cfg : BackupConfigM,
      chooseFullBackupStrategy cfg = FullBackupStrategy.directory ↔
        (1 < cfg.parallel_jobs ∧ cfg.compression ≠ CompressionType.none)) ∧
    customBackupSuffix CompressionType.gzip = (".dump.gz") ∧
    customBackupSuffix CompressionType.bzip2 = (".dump.bz2") ∧
    customBackupSuffix CompressionType.none = (".dump") ∧
    customBackupSuffix CompressionType.lz4 = (".dump") ∧
    directoryArchiveSuffix CompressionType.gzip = (".tar.gz") ∧
    directoryArchiveSuffix CompressionType.bzip2 = (".tar.bz2") ∧
    directoryArchiveSuffix CompressionType.lz4 = (".tar") := by
  refine ⟨?_, by decide, by decide, by decide, by decide, by decide,
    by decide, by decide⟩
  intro cfg
  by_cases h : 1 < cfg.parallel_jobs ∧ cfg.compression ≠ CompressionType.none
  · simp [chooseFullBackupStrategy, h]
  · simp [chooseFullBackupStrategy, h]

/-- The repository's default backup configuration (models.py defaults:
4 parallel jobs, gzip compression, empty filter lists). -/
def defaultBackupConfig : BackupConfigM :=
  { parallel_jobs := 4, compression := CompressionType.gzip,
    exclude_schemas := [], include_schemas := [], exclude_tables := [],
    include_tables := [] }

/-- Witness for C6: the default configuration selects the directory
strategy. -/
theorem full_backup_strategy_selection_witness :
    chooseFullBackupStrategy defaultBackupConfig
      = FullBackupStrategy.directory :=
  (full_backup_strategy_selection.1 defaultBackupConfig).mpr (by decide)

/-! ## C7: backup-config validation (src/utils/validation.py) -/

/-- Characters matching Python's `^[a-zA-Z_][a-zA-Z0-9_]*` for an entire
chunk. -/
def isPyIdentChars (cs : List Char) : Bool :=
  match cs with
  | [] => false
  | c :: rest =>
    (c.isAlpha || c == '_') && rest.all (fun d => d.isAlphanum || d == '_')

/-- Python `re.match(r'^[a-zA-Z_][a-zA-Z0-9_]*$', s)` as a boolean;
Python's `$` also matches just before one trailing newline. -/
def reMatchIdent (s : String) : Bool :=
  isPyIdentChars s.toList ||
    (s.toList.getLast? == some '\n' && isPyIdentChars s.toList.dropLast)

/-- Characters matching `^[a-zA-Z_][a-zA-Z0-9_]*(\.[a-zA-Z_][a-zA-Z0-9_]*)?`
for an entire chunk: one identifier, or two joined by a single dot. -/
def isPyTableChars (cs : List Char) : Bool :=
  match pySplit '.' cs with
  | [a] => isPyIdentChars a
  | [a, b] => isPyIdentChars a && isPyIdentChars b
  | _ => false

/-- The table-name regex of validation.py as a boolean match. -/
def reMatchTable (s : String) : Bool :=
  isPyTableChars s.toList ||
    (s.toList.getLast? == some '\n' && isPyTableChars s.toList.dropLast)

/-- The error messages `validate_backup_config` can append, as a tagged
type; the conflict constructors carry the conflicting entries that the
Python message interpolates (`set(exclude) & set(include)`, modelled as the
exclude list filtered by membership in the include list — the same set of
names; Python's hash-dependent set iteration order is abstracted away). -/
inductive ValidationError where
  | parallelJobsOutOfRange
  | invalidExcludeSchema (name : String)
  | invalidIncludeSchema (name : String)
  | invalidExcludeTable (name : String)
  | invalidIncludeTable (name : String)
  | schemaConflict (conflicts : List String)
  | tableConflict (conflicts : List String)
deriving DecidableEq, Repr

/-- `validate_backup_config` (src/utils/validation.py lines 56-94): range
check on `parallel_jobs`, per-name regex checks on the four filter lists in
order, then the schema and table conflict checks guarded by both lists
being nonempty. -/
def validate_backup_config (cfg : BackupConfigM) : List ValidationError :=
  (if ¬ (1 ≤ cfg.parallel_jobs ∧ cfg.parallel_jobs ≤ 32) then
    [ValidationError.parallelJobsOutOfRange]
  else [])
  ++ ((cfg.exclude_schemas.filter (fun s => !(reMatchIdent s))).map
      ValidationError.invalidExcludeSchema)
  ++ ((cfg.include_schemas.filter (fun s => !(reMatchIdent s))).map
      ValidationError.invalidIncludeSchema)
  ++ ((cfg.exclude_tables.filter (fun s => !(reMatchTable s))).map
      ValidationError.invalidExcludeTable)
  ++ ((cfg.include_tables.filter (fun s => !(reMatchTable s))).map
      ValidationError.invalidIncludeTable)
  ++ (if cfg.exclude_schemas ≠ [] ∧ cfg.include_schemas ≠ [] ∧
        cfg.exclude_schemas.filter
          (fun s => cfg.include_schemas.contains s) ≠ [] then
      [ValidationError.schemaConflict
        (cfg.exclude_schemas.filter
          (fun s => cfg.include_schemas.contains s))]
    else [])
  ++ (if cfg.exclude_tables ≠ [] ∧ cfg.include_tables ≠ [] ∧
        cfg.exclude_tables.filter
          (fun s => cfg.include_tables.contains s) ≠ [] then
      [ValidationError.tableConflict
        (cfg.exclude_tables.filter
          (fun s => cfg.include_tables.contains s))]
    else [])

/-- Claim C7: for a config whose names are well-formed and whose
`parallel_jobs` is in range, validation returns no errors when the
exclude/include schema and table lists are disjoint; and whenever either
intersection is nonempty, validation returns a conflict error naming
exactly the conflicting entries. -/
theorem validate_backup_config_disjoint :
    ∀ cfg : BackupConfigM,
      ((1 ≤ cfg.parallel_jobs ∧ cfg.parallel_jobs ≤ 32) →
        (∀ s ∈ cfg.exclude_schemas, reMatchIdent s = true) →
        (∀ s ∈ cfg.include_schemas, reMatchIdent s = true) →
        (∀ s ∈ cfg.exclude_tables, reMatchTable s = true) →
        (∀ s ∈ cfg.include_tables, reMatchTable s = true) →
        (∀ s ∈ cfg.exclude_schemas, s ∉ cfg.include_schemas) →
        (∀ s ∈ cfg.exclude_tables, s ∉ cfg.include_tables) →
        validate_backup_config cfg = []) ∧
      (∀ s, s ∈ cfg.exclude_schemas → s ∈ cfg.include_schemas →
        ∃ cs, ValidationError.schemaConflict cs ∈ validate_backup_config cfg ∧
          s ∈ cs ∧
          ∀ c ∈ cs, c ∈ cfg.exclude_schemas ∧ c ∈ cfg.include_schemas) ∧
      (∀ s, s ∈ cfg.exclude_tables → s ∈ cfg.include_tables →
        ∃ cs, ValidationError.tableConflict cs ∈ validate_backup_config cfg ∧
          s ∈ cs ∧
          ∀ c ∈ cs, c ∈ cfg.exclude_tables ∧ c ∈ cfg.include_tables) := by
  intro cfg
  refine ⟨?_, ?_, ?_⟩
  · intro hpj hes his het hit hds hdt
    have h2 : cfg.exclude_schemas.filter (fun s => !(reMatchIdent s)) = [] := by
      rw [List.filter_eq_nil_iff]
      intro s hs
      simp [hes s hs]
    have h3 : cfg.include_schemas.filter (fun s => !(reMatchIdent s)) = [] := by
      rw [List.filter_eq_nil_iff]
      intro s hs
      simp [his s hs]
    have h4 : cfg.exclude_tables.filter (fun s => !(reMatchTable s)) = [] := by
      rw [List.filter_eq_nil_iff]
      intro s hs
      simp [het s hs]
    have h5 : cfg.include_tables.filter (fun s => !(reMatchTable s)) = [] := by
      rw [List.filter_eq_nil_iff]
      intro s hs
      simp [hit s hs]
    have h6 : cfg.exclude_schemas.filter
        (fun s => cfg.include_schemas.contains s) = [] := by
      rw [List.filter_eq_nil_iff]
      intro s hs hc
      exact hds s hs (List.elem_iff.mp hc)
    have h7 : cfg.exclude_tables.filter
        (fun s => cfg.include_tables.contains s) = [] := by
      rw [List.filter_eq_nil_iff]
      intro s hs hc
      exact hdt s hs (List.elem_iff.mp hc)
    unfold validate_backup_config
    rw [h2, h3, h4, h5, h6, h7]
    simp [hpj]
  · intro s hse hsi
    refine ⟨cfg.exclude_schemas.filter
      (fun x => cfg.include_schemas.contains x), ?_, ?_, ?_⟩
    · have hmem : s ∈ cfg.exclude_schemas.filter
          (fun x => cfg.include_schemas.contains x) :=
        List.mem_filter.mpr ⟨hse, List.elem_iff.mpr hsi⟩
      have hcond : cfg.exclude_schemas ≠ [] ∧ cfg.include_schemas ≠ [] ∧
          cfg.exclude_schemas.filter
            (fun x => cfg.include_schemas.contains x) ≠ [] :=
        ⟨List.ne_nil_of_mem hse, List.ne_nil_of_mem hsi,
          List.ne_nil_of_mem hmem⟩
      unfold validate_backup_config
      rw [if_pos hcond]
      simp
    · exact List.mem_filter.mpr ⟨hse, List.elem_iff.mpr hsi⟩
    · intro c hc
      have h := List.mem_filter.mp hc
      exact ⟨h.1, List.elem_iff.mp h.2⟩
  · intro s hse hsi
    refine ⟨cfg.exclude_tables.filter
      (fun x => cfg.include_tables.contains x), ?_, ?_, ?_⟩
    · have hmem : s ∈ cfg.exclude_tables.filter
          (fun x => cfg.include_tables.contains x) :=
        List.mem_filter.mpr ⟨hse, List.elem_iff.mpr hsi⟩
      have hcond : cfg.exclude_tables ≠ [] ∧ cfg.include_tables ≠ [] ∧
          cfg.exclude_tables.filter
            (fun x => cfg.include_tables.contains x) ≠ [] :=
        ⟨List.ne_nil_of_mem hse, List.ne_nil_of_mem hsi,
          List.ne_nil_of_mem hmem⟩
      unfold validate_backup_config
      rw [if_pos hcond]
      simp
    · exact List.mem_filter.mpr ⟨hse, List.elem_iff.mpr hsi⟩
    · intro c hc
      have h := List.mem_filter.mp hc
      exact ⟨h.1, List.elem_iff.mp h.2⟩

/-- Witness for C7: the default config (disjoint lists) validates cleanly,
and a config excluding and including the same schema yields a conflict
error naming it. -/
theorem validate_backup_config_disjoint_witness :
    validate_backup_config
      { defaultBackupConfig with
        exclude_schemas := [("tmp")], include_schemas := [("public")] } = [] ∧
    (∃ cs, ValidationError.schemaConflict cs ∈ validate_backup_config
        { defaultBackupConfig with
          exclude_schemas := [("audit")], include_schemas := [("audit")] } ∧
      ("audit") ∈ cs ∧
      ∀ c ∈ cs, c ∈ [("audit")] ∧ c ∈ [("audit")]) := by
  constructor
  · exact (validate_backup_config_disjoint _).1 (by decide)
      (by decide) (by decide) (by decide) (by decide) (by decide) (by decide)
  · exact (validate_backup_config_disjoint _).2.1 ("audit")
      (by decide) (by decide)

/-! ## C8: soft post-restore verification (src/core/restore.py) -/

/-- Result of `DatabaseManager.get_database_info` on the restored target,
reduced to the field `_verify_restoration` reads. `none` models an empty
info dict or a query exception (target not minimally queryable). -/
structure DatabaseInfo where
  table_count : Nat
deriving DecidableEq, Repr

/-- `RestoreManager._verify_restoration` (src/core/restore.py lines
450-475): first component is the returned `verification_passed` value,
second records whether the table-count-mismatch warning was logged. With
info available the function returns `True` unconditionally; the comparison
`current < backup * 0.9` (here in exact arithmetic, `10*current <
9*backup`) only controls the warning. -/
def verifyRestoration (dbInfo : Option DatabaseInfo) (backupTables : Nat) :
    Bool × Bool :=
  match dbInfo with
  | Option.none => (false, false)
  | some info =>
    if 0 < backupTables ∧ 10 * info.table_count < 9 * backupTables then
      (true, true)
    else
      (true, false)

/-- The success epilogue of `RestoreManager.restore_backup` (lines 88-95):
after the format-specific restore succeeds, the result is finalized to
`completed` with `verification_passed` copied from `_verify_restoration` —
the verification outcome never changes the status. -/
def finalizeRestoreSuccess (r : RestoreResultM) (verificationPassed : Bool)
    (tablesRestored endTime : Nat) : RestoreResultM :=
  { r with
    status := BackupStatus.completed,
    end_time := some endTime,
    verification_passed := verificationPassed,
    tables_restored := tablesRestored }

/-- Claim C8: when the recorded artifact table count is positive and the
restored table count falls short by more than 10%, verification logs the
warning but still passes (the target being minimally queryable, i.e. its
info is available), and the restore's final status is `completed`, never
flipped to `failed` by the mismatch. -/
theorem soft_verification_tolerance :
    ∀ (info : DatabaseInfo) (backupTables : Nat) (r : RestoreResultM)
      (tablesRestored endTime : Nat),
      0 < backupTables →
      10 * info.table_count < 9 * backupTables →
      (verifyRestoration (some info) backupTables).1 = true ∧
      (verifyRestoration (some info) backupTables).2 = true ∧
      (finalizeRestoreSuccess r (verifyRestoration (some info) backupTables).1
        tablesRestored endTime).status = BackupStatus.completed ∧
      (finalizeRestoreSuccess r (verifyRestoration (some info) backupTables).1
        tablesRestored endTime).status ≠ BackupStatus.failed ∧
      (finalizeRestoreSuccess r (verifyRestoration (some info) backupTables).1
        tablesRestored endTime).verification_passed = true := by
  intro info b r n t h1 h2
  have hv : verifyRestoration (some info) b = (true, true) := by
    simp [verifyRestoration, h1, h2]
  refine ⟨by rw [hv], by rw [hv], ?_, ?_, ?_⟩ <;>
    simp [finalizeRestoreSuccess, hv]

/-- A concrete in-flight restore result used in the C8 witness. -/
def sampleRunningRestore : RestoreResultM :=
  { backup_file := ("b.dump"), status := BackupStatus.running,
    start_time := 0, end_time := Option.none, tables_restored := 0,
    verification_passed := false, error_message := Option.none }

/-- Witness for C8: an artifact recording 100 tables restored as only 50
(a 50% shortfall) still passes verification with the warning logged, and
the finalized result is `completed`. -/
theorem soft_verification_tolerance_witness :
    (verifyRestoration (some ⟨50⟩) 100).1 = true ∧
    (verifyRestoration (some ⟨50⟩) 100).2 = true ∧
    (finalizeRestoreSuccess sampleRunningRestore
      (verifyRestoration (some ⟨50⟩) 100).1 50 9).status
        = BackupStatus.completed ∧
    (finalizeRestoreSuccess sampleRunningRestore
      (verifyRestoration (some ⟨50⟩) 100).1 50 9).status
        ≠ BackupStatus.failed ∧
    (finalizeRestoreSuccess sampleRunningRestore
      (verifyRestoration (some ⟨50⟩) 100).1 50 9).verification_passed
        = true :=
  soft_verification_tolerance ⟨50⟩ 100 sampleRunningRestore 50 9
    (by decide) (by decide)

end PgBackupTool

